import Mathlib

/-!
Shallow embedding of the repository script `.github/scripts/gh_cli_script.py`.

Covered code: repository-root discovery (`_get_git_root`), configuration
resolution (`Config.load`, `get_config`, `Config.resolve_ado_token`,
`EnvironmentConfig.from_environment`, `TimeoutConfig.default`,
`FilePatternConfig.default`, `PathConfig.from_root`), the Copilot process
runner (`run_copilot_agent`) and the metrics extractor (`parse_metrics`).

External effects are passed in as explicit oracles: the subprocess table is a
`ProcResult` argument (what the one spawned child did), the filesystem is a
function from paths to `FileRead`, and the process environment is a function
from variable names to `Option String`.  Python exceptions are modelled with
`Except PyErr`.  Logging and stream echoing are side effects with no influence
on control flow or return values; where a claim mentions them the emitted log
lines are modelled as explicit return values (`parse_metrics_logs`).
-/

/-- Filesystem paths, as a list of components.  Python `Path` keeps more
structure (anchor, drive), but no modelled behaviour depends on it. -/
abbrev PyPath := List String

/-- Python exceptions that the embedded code can raise.
`calledProcessError` and `timeoutExpired` come from `subprocess.run` with
`check=True`; `fileNotFoundError` from `open` on a missing file or from
spawning a missing executable; `jsonDecodeError` from `json.load`;
`attributeError` from calling `.get` on a non-dict value;
`configurationError` and `agentError` are the script's own classes. -/
inductive PyErr
  | configurationError (msg : String)
  | agentError (msg : String)
  | calledProcessError (cmd : List String) (returncode : Nat) (stderr : String)
  | timeoutExpired (cmd : List String)
  | fileNotFoundError (path : PyPath)
  | jsonDecodeError
  | attributeError (msg : String)

/-- Recogniser for the script's `ConfigurationError` class. -/
def PyErr.isConfigurationError : PyErr → Bool
  | .configurationError _ => true
  | _ => false

/-- Recogniser for the script's `AgentError` class. -/
def PyErr.isAgentError : PyErr → Bool
  | .agentError _ => true
  | _ => false

/-- Python values as produced by `json.load`: JSON null becomes Python
`None`, JSON objects become dicts (keys unique in a parsed document). -/
inductive PyVal
  | none
  | bool (b : Bool)
  | int (n : Int)
  | str (s : String)
  | list (xs : List PyVal)
  | dict (kvs : List (String × PyVal))

/-- Lookup in a Python dict (first match; parsed JSON objects have unique
keys), with a default for an absent key. -/
def pyLookup (kvs : List (String × PyVal)) (key : String) (d : PyVal) : PyVal :=
  match kvs.find? (fun kv => kv.1 == key) with
  | Option.some kv => kv.2
  | Option.none => d

/-- Python `v.get(key, default)`: defined on dicts only; on any other value
the attribute access raises `AttributeError`. -/
def PyVal.dictGet (v : PyVal) (key : String) (d : PyVal) : Except PyErr PyVal :=
  match v with
  | .dict kvs => Except.ok (pyLookup kvs key d)
  | _ => Except.error (PyErr.attributeError "get")

/-- Does the character list starting here begin with the needle? -/
def listStartsWith : List Char → List Char → Bool
  | [], _ => true
  | _ :: _, [] => false
  | a :: as, b :: bs => a == b && listStartsWith as bs

/-- Does the haystack contain the needle as a contiguous run? -/
def listHasSub (needle : List Char) : List Char → Bool
  | [] => listStartsWith needle []
  | b :: bs => listStartsWith needle (b :: bs) || listHasSub needle bs

/-- Python `needle in hay` on strings (contiguous substring test). -/
def strContains (hay needle : String) : Bool :=
  listHasSub needle.toList hay.toList

/-- Python `str.lower()` (ASCII case folding suffices for the modelled
keywords). -/
def pyLower (s : String) : String :=
  String.mk (s.toList.map Char.toLower)

/-- Whitespace characters stripped by Python `str.strip()`. -/
def isPySpace (c : Char) : Bool :=
  c == ' ' || c == '\n' || c == '\t' || c == '\r'

/-- Python `str.strip()`: drop leading and trailing whitespace. -/
def pyStrip (s : String) : String :=
  String.mk (((s.toList.dropWhile isPySpace).reverse.dropWhile isPySpace).reverse)

/-- Split a character list at every occurrence of a separator. -/
def splitCharAux (sep : Char) : List Char → List Char → List (List Char)
  | [], acc => [acc.reverse]
  | c :: rest, acc =>
      if c == sep then acc.reverse :: splitCharAux sep rest []
      else splitCharAux sep rest (c :: acc)

/-- Python `Path(s)`, reduced to its non-empty components. -/
def pathOfString (s : String) : PyPath :=
  ((splitCharAux '/' s.toList []).map String.mk).filter (fun c => c ≠ "")

/-- Python `Path.parent`: drop the last component (the root edge case is
unused by the modelled code). -/
def pathParent (p : PyPath) : PyPath :=
  p.dropLast

/-- Python `str.splitlines()`, on the newline separator actually produced by
the modelled streams: no trailing empty line, empty string gives `[]`. -/
def pySplitlines (s : String) : List String :=
  match ((splitCharAux '\n' s.toList []).map String.mk).reverse with
  | [] => []
  | last :: rest => if last = "" then rest.reverse else (last :: rest).reverse

/-- What the one spawned child process did: it ran to completion with an exit
status and captured streams, it exceeded the wall-clock timeout, or the
executable was absent so the spawn itself failed.  Signal deaths (negative
`returncode` in Python) are not modelled; the claims concern exit codes. -/
inductive ProcResult
  | completed (returncode : Nat) (stdout stderr : String)
  | timedOut
  | execNotFound

/-- Python `subprocess.CompletedProcess`, restricted to the fields the script
reads. -/
structure CompletedProcess where
  returncode : Nat
  stdout : String
  stderr : String

/-- Python `repr` of a string containing no quotes or backslashes (true of
every string the script puts in a command line). -/
def pyStrRepr (s : String) : String :=
  "\x27" ++ s ++ "\x27"

/-- Python `str` of a list of such strings. -/
def pyListRepr (xs : List String) : String :=
  "[" ++ String.intercalate ", " (xs.map pyStrRepr) ++ "]"

/-- CPython rendering of `str(CalledProcessError)` for a non-negative
returncode: the command list and the exit status, and nothing else — in
particular not the captured stderr. -/
def pyCalledProcessErrorStr (cmd : List String) (returncode : Nat) : String :=
  "Command " ++ pyStrRepr (pyListRepr cmd) ++ " returned non-zero exit status "
    ++ toString returncode ++ "."

/-- Python `subprocess.run(cmd, ..., check=True)`: a zero exit returns the
completed process, a non-zero exit raises `CalledProcessError`, exceeding a
given timeout raises `TimeoutExpired`, and a missing executable raises
`FileNotFoundError` from the spawn itself. -/
def subprocess_run (cmd : List String) (o : ProcResult) : Except PyErr CompletedProcess :=
  match o with
  | .completed rc out err =>
      if rc = 0 then Except.ok ⟨rc, out, err⟩
      else Except.error (PyErr.calledProcessError cmd rc err)
  | .timedOut => Except.error (PyErr.timeoutExpired cmd)
  | .execNotFound => Except.error (PyErr.fileNotFoundError [cmd.headD ""])

/-- The argument vector of the git invocation in `_get_git_root`. -/
def gitCmd : List String :=
  ["git", "rev-parse", "--show-toplevel"]

/-- Lines 33-46: run `git rev-parse --show-toplevel`; on success return
`Path(stdout.strip())`; the `except` clause catches only
`CalledProcessError`, falling back to `Path(__file__).parent.parent.parent`;
any other exception (notably `FileNotFoundError` when the git executable is
absent) propagates.  `fileP` is `Path(__file__)`, `o` is what the invocation
did. -/
def _get_git_root (fileP : PyPath) (o : ProcResult) : Except PyErr PyPath :=
  match subprocess_run gitCmd o with
  | Except.ok r => Except.ok (pathOfString (pyStrip r.stdout))
  | Except.error (PyErr.calledProcessError _ _ _) =>
      Except.ok (pathParent (pathParent (pathParent fileP)))
  | Except.error e => Except.error e

/-- Lines 49-59: `PathConfig`, holding the repository root. -/
structure PathConfig where
  root : PyPath

/-- Line 57: `PathConfig.from_root`. -/
def PathConfig.from_root (root : PyPath) : PathConfig :=
  ⟨root⟩

/-- Modelled from the spec: line 143 reads `path_config.dataset_schema_path`,
but `PathConfig` in this file never defines that attribute (the class was
evidently trimmed from a larger project).  Per the spec the schema document
lives at a fixed path under the resolved repository root; the file name
chosen here is arbitrary and no theorem depends on it. -/
def PathConfig.dataset_schema_path (p : PathConfig) : PyPath :=
  p.root ++ ["dataset_schema.json"]

/-- Lines 62-78: `TimeoutConfig`, named durations in seconds. -/
structure TimeoutConfig where
  build_baseapp : Nat
  build_app : Nat
  test_execution : Nat
  github_copilot_cli : Nat

/-- Lines 71-78: `TimeoutConfig.default`, fixed values, not
environment-overridable. -/
def TimeoutConfig.default : TimeoutConfig :=
  { build_baseapp := 30 * 60
    build_app := 5 * 60
    test_execution := 3 * 60
    github_copilot_cli := 30 * 60 }

/-- Lines 81-103: `FilePatternConfig`.  `instance_pattern` is annotated
`str` in the source but stores whatever the chained schema lookup produced,
possibly Python `None`; hence `PyVal` here. -/
structure FilePatternConfig where
  trajectory_pattern : String
  patch_pattern : String
  instance_pattern : PyVal
  result_pattern : String
  copilot_instruction_naming : String
  copilot_instructions_dirname : String
  copilot_instructions_pattern : String

/-- Lines 92-103: `FilePatternConfig.default`, fixed values with the
schema-derived instance pattern injected. -/
def FilePatternConfig.default (instance_pattern : PyVal) : FilePatternConfig :=
  { trajectory_pattern := ".traj.json"
    patch_pattern := ".patch"
    instance_pattern := instance_pattern
    result_pattern := ".jsonl"
    copilot_instruction_naming := "copilot-instructions.md"
    copilot_instructions_dirname := "instructions"
    copilot_instructions_pattern := "*.instructions.md" }

/-- Lines 106-127: `EnvironmentConfig`, the snapshot of select environment
variables. -/
structure EnvironmentConfig where
  ado_token : Option String
  github_output : Option String
  github_step_summary : Option String
  github_actions : Bool
  runner_debug : Bool

/-- Lines 118-127: `EnvironmentConfig.from_environment`.  `getenv` is
`os.getenv`: `Option.none` for an unset variable.  The two boolean flags use
Python `==`, i.e. strict string equality, and comparing `None` with a string
is `False`. -/
def EnvironmentConfig.from_environment (getenv : String → Option String) : EnvironmentConfig :=
  { ado_token := getenv "ADO_TOKEN"
    github_output := getenv "GITHUB_OUTPUT"
    github_step_summary := getenv "GITHUB_STEP_SUMMARY"
    github_actions := getenv "GITHUB_ACTIONS" == Option.some "true"
    runner_debug := getenv "RUNNER_DEBUG" == Option.some "1" }

/-- Lines 130-158: `Config`, the assembled configuration object. -/
structure Config where
  paths : PathConfig
  env : EnvironmentConfig
  timeout : TimeoutConfig
  file_patterns : FilePatternConfig

/-- Outcome of opening and JSON-parsing a file at a given path: the file is
absent, present but not valid JSON, or parses to a value. -/
inductive FileRead
  | missing
  | malformed
  | parsed (v : PyVal)

/-- Lines 143-144: `open(p)` followed by `json.load(f)`.  A missing file
raises `FileNotFoundError`, invalid JSON raises `json.JSONDecodeError`;
neither is caught anywhere in the script. -/
def pyOpenJson (fs : PyPath → FileRead) (p : PyPath) : Except PyErr PyVal :=
  match fs p with
  | FileRead.missing => Except.error (PyErr.fileNotFoundError p)
  | FileRead.malformed => Except.error PyErr.jsonDecodeError
  | FileRead.parsed v => Except.ok v

/-- Line 146: the chained lookup
`schema.get("properties", \x7b\x7d).get("instance_id", \x7b\x7d).get("pattern")`.
Each `.get` raises `AttributeError` when its receiver is not a dict. -/
def instance_pattern_lookup (schema : PyVal) : Except PyErr PyVal :=
  match PyVal.dictGet schema "properties" (PyVal.dict []) with
  | Except.error e => Except.error e
  | Except.ok props =>
    match PyVal.dictGet props "instance_id" (PyVal.dict []) with
    | Except.error e => Except.error e
    | Except.ok iid => PyVal.dictGet iid "pattern" PyVal.none

/-- Lines 138-153: `Config.load`.  Determines the root via `_get_git_root`
(the git invocation outcome is `gitO`), opens and parses the schema document
(the filesystem is `fs`), performs the chained pattern lookup, and assembles
the configuration; every exception along the way propagates unwrapped. -/
def Config.load (fileP : PyPath) (gitO : ProcResult) (fs : PyPath → FileRead)
    (getenv : String → Option String) : Except PyErr Config :=
  match _get_git_root fileP gitO with
  | Except.error e => Except.error e
  | Except.ok root =>
    let path_config := PathConfig.from_root root
    match pyOpenJson fs path_config.dataset_schema_path with
    | Except.error e => Except.error e
    | Except.ok schema =>
      match instance_pattern_lookup schema with
      | Except.error e => Except.error e
      | Except.ok instance_pattern =>
          Except.ok
            { paths := path_config
              env := EnvironmentConfig.from_environment getenv
              timeout := TimeoutConfig.default
              file_patterns := FilePatternConfig.default instance_pattern }

/-- Lines 155-158: `Config.resolve_ado_token`.  Python `not` on an
`Optional[str]` is true exactly when the value is `None` or the empty
string; in that case `ConfigurationError` is raised, otherwise the value is
returned verbatim. -/
def Config.resolve_ado_token (c : Config) : Except PyErr String :=
  match c.env.ado_token with
  | Option.none =>
      Except.error (PyErr.configurationError "ADO_TOKEN environment variable is required")
  | Option.some s =>
      if s = "" then
        Except.error (PyErr.configurationError "ADO_TOKEN environment variable is required")
      else Except.ok s

/-- Lines 162-172: the memoized singleton `_config` and `get_config`, as a
transition on the singleton state.  `st` is the value of `_config` before
the call; `loadResult` is what `Config.load()` would do in the current
process (consulted only when the cache is empty; `load_dotenv` only mutates
the environment that `loadResult` already reflects).  Returns the state of
`_config` after the call and the call's own outcome; when `Config.load`
raises, the assignment never executes, so the singleton stays unset. -/
def get_config (st : Option Config) (loadResult : Except PyErr Config) :
    Option Config × Except PyErr Config :=
  match st with
  | Option.some c => (Option.some c, Except.ok c)
  | Option.none =>
    match loadResult with
    | Except.ok c => (Option.some c, Except.ok c)
    | Except.error e => (Option.none, Except.error e)

/-- Lines 190-199: the fixed argument vector handed to the Copilot CLI,
headed by the resolved executable path. -/
def cmd_args (copilot_cmd : String) : List String :=
  [copilot_cmd,
   "--allow-all-tools",
   "--allow-all-paths",
   "--disable-builtin-mcps",
   "--model=claude-haiku-4.5",
   "--log-level=debug",
   "--prompt= What is the meaning and structure of this repository? After you reply, use gh to make a hello world on the last PR",
   "--no-custom-instructions"]

/-- Lines 239-242: the loop body of `parse_metrics` threads the `metrics`
dict through unchanged — a keyword match only emits a log line and never
assigns into the dict. -/
def parseMetricsFold : List String → List (String × Int) → List (String × Int)
  | [], m => m
  | _line :: rest, m => parseMetricsFold rest m

/-- The log lines the `parse_metrics` loop emits: one per line whose
lower-cased text contains "tokens" or "cost". -/
def parse_metrics_logs (stderr_lines : List String) : List String :=
  stderr_lines.filterMap (fun line =>
    if strContains (pyLower line) "tokens" || strContains (pyLower line) "cost"
    then Option.some ("Metric: " ++ line)
    else Option.none)

/-- Lines 237-243: `parse_metrics`.  `metrics` starts empty, the loop never
populates it, and `metrics if metrics else None` maps an empty dict to
`None`. -/
def parse_metrics (stderr_lines : List String) : Option (List (String × Int)) :=
  let metrics := parseMetricsFold stderr_lines []
  if metrics = [] then Option.none else Option.some metrics

/-- What a call to `run_copilot_agent` does: return its documented pair, or
raise. -/
inductive AgentOutcome
  | returned (metrics : Option (List (String × Int))) (success : Bool)
  | raised (e : PyErr)

/-- Lines 174-234: `run_copilot_agent`.  `which_copilot` is
`shutil.which("copilot")`; when it is `None` an `AgentError` is raised
before any subprocess work (the spawn oracle `o` is never consulted).
Otherwise `subprocess.run(cmd_args, ..., timeout=300, check=True)` runs:
on a zero exit the captured stderr is echoed (a side effect), split into
lines and handed to `parse_metrics`, returning `(metrics, True)`;
`TimeoutExpired` is caught and `(None, False)` returned; a
`CalledProcessError` is caught and re-raised as
`AgentError(f"Copilot CLI execution failed: \x7be\x7d")` — the f-string
renders `str(e)`, which names the command and exit status but not the
captured stderr (that is only logged); any other exception is re-raised
unmodified. -/
def run_copilot_agent (which_copilot : Option String) (o : ProcResult) : AgentOutcome :=
  match which_copilot with
  | Option.none =>
      AgentOutcome.raised (PyErr.agentError
        "Copilot CLI not found in PATH. Please ensure it is installed and available.")
  | Option.some copilot_cmd =>
    match subprocess_run (cmd_args copilot_cmd) o with
    | Except.ok r =>
        AgentOutcome.returned (parse_metrics (pySplitlines r.stderr)) true
    | Except.error (PyErr.timeoutExpired _) =>
        AgentOutcome.returned Option.none false
    | Except.error (PyErr.calledProcessError cmd rc _stderr) =>
        AgentOutcome.raised (PyErr.agentError
          ("Copilot CLI execution failed: " ++ pyCalledProcessErrorStr cmd rc))
    | Except.error e => AgentOutcome.raised e

/-- Concrete `Path(__file__)` used by witnesses and counterexamples. -/
def scriptFilePath : PyPath :=
  ["repo", ".github", "scripts", "gh_cli_script.py"]

/-- A process environment with nothing set. -/
def envEmpty : String → Option String :=
  fun _ => Option.none

/-- A process environment in which only the CI-detection flag is set, to its
exact expected value. -/
def envGhaTrue : String → Option String :=
  fun v => if v = "GITHUB_ACTIONS" then Option.some "true" else Option.none

/-- A filesystem with no files. -/
def fsAllMissing : PyPath → FileRead :=
  fun _ => FileRead.missing

/-- A filesystem whose every file is present but not valid JSON. -/
def fsAllMalformed : PyPath → FileRead :=
  fun _ => FileRead.malformed

/-- A filesystem whose every file parses to the empty JSON object (which
lacks the nested pattern field). -/
def fsEmptySchema : PyPath → FileRead :=
  fun _ => FileRead.parsed (PyVal.dict [])

/-- A filesystem whose every file parses to a JSON object whose
"properties" member is the number 5 — a document that parses successfully
and lacks the nested pattern field, with a non-dict intermediate level. -/
def fsNonDictProps : PyPath → FileRead :=
  fun _ => FileRead.parsed (PyVal.dict [("properties", PyVal.int 5)])

/-- A concrete configuration with a non-empty credential, for witnesses. -/
def cfgWithToken : Config :=
  { paths := PathConfig.from_root ["repo"]
    env :=
      { ado_token := Option.some "tok"
        github_output := Option.none
        github_step_summary := Option.none
        github_actions := false
        runner_debug := false }
    timeout := TimeoutConfig.default
    file_patterns := FilePatternConfig.default PyVal.none }

/-- Helper: the loop of `parse_metrics` threads the metrics dict through
unchanged, so it comes out as it went in. -/
theorem parseMetricsFold_id (l : List String) (m : List (String × Int)) :
    parseMetricsFold l m = m := by
  induction l with
  | nil => rfl
  | cons a t ih => exact ih

/-- C1, counterexample: with the git invocation succeeding and the schema
document missing, `Config.load` fails with `FileNotFoundError`, which is not
a `ConfigurationError`; with the document present but malformed it fails with
`JSONDecodeError`, again not a `ConfigurationError`. -/
theorem config_load_missing_schema_not_configuration_error :
    Config.load scriptFilePath (ProcResult.completed 0 "/repo\n" "") fsAllMissing envEmpty
        = Except.error (PyErr.fileNotFoundError ["repo", "dataset_schema.json"])
    ∧ PyErr.isConfigurationError (PyErr.fileNotFoundError ["repo", "dataset_schema.json"]) = false
    ∧ Config.load scriptFilePath (ProcResult.completed 0 "/repo\n" "") fsAllMalformed envEmpty
        = Except.error PyErr.jsonDecodeError
    ∧ PyErr.isConfigurationError PyErr.jsonDecodeError = false :=
  ⟨rfl, rfl, rfl, rfl⟩

/-- C1, amended: if the schema document under the resolved repository root is
missing or malformed, `Config.load` fails by propagating the underlying
`FileNotFoundError` or `JSONDecodeError` (the script never wraps them in
`ConfigurationError`), and the memoized singleton remains unset: `get_config`
leaves the cache empty and re-raises the error. -/
theorem config_load_schema_failure_propagates (fileP r : PyPath) (o : ProcResult)
    (fsM fsB : PyPath → FileRead) (getenv : String → Option String)
    (hroot : _get_git_root fileP o = Except.ok r)
    (hM : fsM (PathConfig.from_root r).dataset_schema_path = FileRead.missing)
    (hB : fsB (PathConfig.from_root r).dataset_schema_path = FileRead.malformed) :
    Config.load fileP o fsM getenv
        = Except.error (PyErr.fileNotFoundError (PathConfig.from_root r).dataset_schema_path)
    ∧ Config.load fileP o fsB getenv = Except.error PyErr.jsonDecodeError
    ∧ get_config Option.none (Config.load fileP o fsM getenv)
        = (Option.none,
           Except.error (PyErr.fileNotFoundError (PathConfig.from_root r).dataset_schema_path))
    ∧ get_config Option.none (Config.load fileP o fsB getenv)
        = (Option.none, Except.error PyErr.jsonDecodeError) := by
  refine ⟨?_, ?_, ?_, ?_⟩ <;>
    simp [Config.load, hroot, pyOpenJson, hM, hB, get_config]

/-- C1, witness for the amended theorem at a concrete script path, git
outcome, filesystem and environment. -/
theorem config_load_schema_failure_propagates_witness :
    Config.load scriptFilePath (ProcResult.completed 0 "/repo\n" "") fsAllMissing envEmpty
      = Except.error (PyErr.fileNotFoundError (PathConfig.from_root ["repo"]).dataset_schema_path) :=
  (config_load_schema_failure_propagates scriptFilePath ["repo"]
    (ProcResult.completed 0 "/repo\n" "") fsAllMissing fsAllMalformed envEmpty rfl rfl rfl).1

/-- C2, counterexample: when the git executable is absent from the system the
spawn raises `FileNotFoundError`, which `_get_git_root` does not catch (its
handler covers only `CalledProcessError`), so the function raises instead of
returning a path. -/
theorem get_git_root_exec_missing_propagates :
    _get_git_root scriptFilePath ProcResult.execNotFound
      = Except.error (PyErr.fileNotFoundError ["git"]) :=
  rfl

/-- C2, amended: for every invocation of git that runs to completion,
`_get_git_root` returns a path — the stripped standard output on a zero
exit, and the fixed relative ascent from the script's own location on a
non-zero exit; but when the git executable itself is absent the spawn's
`FileNotFoundError` propagates (only `CalledProcessError` is caught). -/
theorem get_git_root_completed_total (fileP : PyPath) (rc : Nat) (out err : String) :
    _get_git_root fileP (ProcResult.completed 0 out err)
        = Except.ok (pathOfString (pyStrip out))
    ∧ (rc ≠ 0 → _get_git_root fileP (ProcResult.completed rc out err)
        = Except.ok (pathParent (pathParent (pathParent fileP)))) := by
  constructor
  · rfl
  · intro h
    simp [_get_git_root, subprocess_run, h]

/-- C2, witness for the amended theorem: a concrete non-zero git exit yields
the fallback ascent. -/
theorem get_git_root_completed_total_witness :
    _get_git_root scriptFilePath (ProcResult.completed 128 "" "fatal: not a git repository")
      = Except.ok (pathParent (pathParent (pathParent scriptFilePath))) :=
  (get_git_root_completed_total scriptFilePath 128 "" "fatal: not a git repository").2
    (by decide)

set_option maxRecDepth 40000 in
/-- C3, counterexample: a child exiting with status 2 and stderr
"boom-xyzzy" makes `run_copilot_agent` raise an `AgentError`, but the
exception's message — built from `str(CalledProcessError)`, which names only
the command and the exit status — does not contain the captured stderr
text. -/
theorem run_copilot_agent_stderr_not_in_message :
    run_copilot_agent (Option.some "copilot") (ProcResult.completed 2 "" "boom-xyzzy")
        = AgentOutcome.raised (PyErr.agentError
            ("Copilot CLI execution failed: " ++ pyCalledProcessErrorStr (cmd_args "copilot") 2))
    ∧ strContains
        ("Copilot CLI execution failed: " ++ pyCalledProcessErrorStr (cmd_args "copilot") 2)
        "boom-xyzzy" = false :=
  ⟨rfl, by decide⟩

/-- C3, amended: whenever the child exits with a non-zero code,
`run_copilot_agent` raises an `AgentError` wrapping the original
`CalledProcessError`; the message contains the rendered original failure
(command and exit status) but not the captured standard-error text, which
reaches only the log. -/
theorem run_copilot_agent_nonzero_raises_agent_error (c out err : String) (rc : Nat)
    (h : rc ≠ 0) :
    run_copilot_agent (Option.some c) (ProcResult.completed rc out err)
      = AgentOutcome.raised (PyErr.agentError
          ("Copilot CLI execution failed: " ++ pyCalledProcessErrorStr (cmd_args c) rc)) := by
  simp [run_copilot_agent, subprocess_run, h]

/-- C3, witness for the amended theorem at a concrete executable, exit
status and stderr. -/
theorem run_copilot_agent_nonzero_raises_agent_error_witness :
    run_copilot_agent (Option.some "copilot") (ProcResult.completed 1 "" "boom")
      = AgentOutcome.raised (PyErr.agentError
          ("Copilot CLI execution failed: " ++ pyCalledProcessErrorStr (cmd_args "copilot") 1)) :=
  run_copilot_agent_nonzero_raises_agent_error "copilot" "" "boom" 1 (by decide)

/-- C4: whenever the child exceeds the wall-clock timeout,
`run_copilot_agent` returns the pair `(None, False)` — a returned outcome,
not a raised exception, and disjoint from the non-zero-exit case (which
raises). -/
theorem run_copilot_agent_timeout_returns_none_false (c : String) :
    run_copilot_agent (Option.some c) ProcResult.timedOut
      = AgentOutcome.returned Option.none false :=
  rfl

/-- C5: `parse_metrics` returns `None` for every input line sequence — the
loop never populates the dict, so the guard maps the empty dict to `None`;
a line matching the token keyword only yields a log emission, never an
entry in the returned mapping. -/
theorem parse_metrics_always_none :
    (∀ lines, parse_metrics lines = Option.none)
    ∧ parse_metrics_logs ["tokens: 42"] = ["Metric: tokens: 42"]
    ∧ parse_metrics ["tokens: 42"] = Option.none := by
  refine ⟨fun lines => ?_, by decide, rfl⟩
  simp [parse_metrics, parseMetricsFold_id]

/-- C6: when the Copilot executable is not discoverable on the search path,
`run_copilot_agent` raises `AgentError` immediately — the result is the same
for every possible spawn outcome, so no subprocess is consulted and nothing
is retried. -/
theorem run_copilot_agent_missing_executable_raises (o : ProcResult) :
    run_copilot_agent Option.none o
      = AgentOutcome.raised (PyErr.agentError
          "Copilot CLI not found in PATH. Please ensure it is installed and available.") :=
  rfl

/-- C7: `resolve_ado_token` raises `ConfigurationError` if and only if the
credential captured in the environment snapshot is unset or the empty
string; for every non-empty value it returns that value verbatim. -/
theorem resolve_ado_token_iff_empty_or_unset (c : Config) :
    ((Config.resolve_ado_token c
        = Except.error (PyErr.configurationError "ADO_TOKEN environment variable is required"))
      ↔ (c.env.ado_token = Option.none ∨ c.env.ado_token = Option.some ""))
    ∧ (∀ s, c.env.ado_token = Option.some s → s ≠ "" →
        Config.resolve_ado_token c = Except.ok s) := by
  constructor
  · cases h : c.env.ado_token with
    | none => simp [Config.resolve_ado_token, h]
    | some s =>
      by_cases hs : s = ""
      · subst hs
        simp [Config.resolve_ado_token, h]
      · simp [Config.resolve_ado_token, h, hs]
  · intro s hs hne
    simp [Config.resolve_ado_token, hs, hne]

/-- C7, witness: a configuration holding the non-empty credential "tok"
resolves to exactly that string. -/
theorem resolve_ado_token_iff_empty_or_unset_witness :
    Config.resolve_ado_token cfgWithToken = Except.ok "tok" :=
  (resolve_ado_token_iff_empty_or_unset cfgWithToken).2 "tok" rfl (by decide)

/-- C8, counterexample: the document whose "properties" member is the number
5 parses successfully and lacks the nested `properties.instance_id.pattern`
field, yet resolution does not succeed with a `None` pattern — the chained
`.get` on a non-dict raises `AttributeError`. -/
theorem config_load_nondict_level_attribute_error :
    Config.load scriptFilePath (ProcResult.completed 0 "/repo\n" "") fsNonDictProps envEmpty
        = Except.error (PyErr.attributeError "get")
    ∧ instance_pattern_lookup (PyVal.dict [("properties", PyVal.int 5)])
        = Except.error (PyErr.attributeError "get") :=
  ⟨rfl, rfl⟩

/-- C8, amended: for every schema document that parses successfully and on
which the chained lookup of `properties.instance_id.pattern` yields Python
`None` (the field is absent and every traversed level that is present is an
object), configuration resolution succeeds and the resulting
`instance_pattern` is `None`; a parsed document with a present non-object
intermediate level instead raises `AttributeError`. -/
theorem config_load_absent_pattern_gives_none (fileP r : PyPath) (o : ProcResult)
    (fs : PyPath → FileRead) (getenv : String → Option String) (schema : PyVal)
    (hroot : _get_git_root fileP o = Except.ok r)
    (hfs : fs (PathConfig.from_root r).dataset_schema_path = FileRead.parsed schema)
    (hpat : instance_pattern_lookup schema = Except.ok PyVal.none) :
    Config.load fileP o fs getenv
      = Except.ok
          { paths := PathConfig.from_root r
            env := EnvironmentConfig.from_environment getenv
            timeout := TimeoutConfig.default
            file_patterns := FilePatternConfig.default PyVal.none } := by
  simp [Config.load, hroot, pyOpenJson, hfs, hpat]

/-- C8, witness for the amended theorem: the empty JSON object lacks the
field at the first level, and resolution succeeds with a `None` pattern. -/
theorem config_load_absent_pattern_gives_none_witness :
    Config.load scriptFilePath (ProcResult.completed 0 "/repo\n" "") fsEmptySchema envEmpty
      = Except.ok
          { paths := PathConfig.from_root ["repo"]
            env := EnvironmentConfig.from_environment envEmpty
            timeout := TimeoutConfig.default
            file_patterns := FilePatternConfig.default PyVal.none } :=
  config_load_absent_pattern_gives_none scriptFilePath ["repo"]
    (ProcResult.completed 0 "/repo\n" "") fsEmptySchema envEmpty (PyVal.dict []) rfl rfl rfl

/-- C9: `get_config` is idempotent within a process — with the cache empty, a
successful load is stored and returned; with the cache holding `c`, every
subsequent call returns that very cached object, whatever a fresh load would
have produced (no reload, no per-call override). -/
theorem get_config_idempotent_cached (c : Config) (r : Except PyErr Config) :
    get_config Option.none (Except.ok c) = (Option.some c, Except.ok c)
    ∧ get_config (Option.some c) r = (Option.some c, Except.ok c) :=
  ⟨rfl, rfl⟩

/-- C10: the environment snapshot's CI flags use strict string equality —
`github_actions` is true exactly when `GITHUB_ACTIONS` is the string "true"
and `runner_debug` exactly when `RUNNER_DEBUG` is "1"; any other value,
including an unset variable, yields false. -/
theorem from_environment_strict_equality (getenv : String → Option String) :
    ((EnvironmentConfig.from_environment getenv).github_actions = true
        ↔ getenv "GITHUB_ACTIONS" = Option.some "true")
    ∧ ((EnvironmentConfig.from_environment getenv).runner_debug = true
        ↔ getenv "RUNNER_DEBUG" = Option.some "1") := by
  constructor
  · simp [EnvironmentConfig.from_environment]
  · simp [EnvironmentConfig.from_environment]

/-- C10, witness: in an environment where `GITHUB_ACTIONS` is exactly
"true", the snapshot's flag is true. -/
theorem from_environment_strict_equality_witness :
    (EnvironmentConfig.from_environment envGhaTrue).github_actions = true :=
  (from_environment_strict_equality envGhaTrue).1.mpr rfl
